import Mathlib

/-!
Shallow embedding of the App_flow repository: the login screen
(LoginScreen), the registration screen (RegisterScreen.tsx), the
forgot-password wizard (ForgotPasswordScreen), and the root App component.
Pure validation functions become Lean functions on `String`; event handlers
become functions from explicit state to a new state together with a list of
emitted effects (keychain writes, AsyncStorage writes, navigation calls,
modal alerts). JavaScript strings are modelled as Lean strings (lists of
characters); string truthiness (`!s`) is the empty-string test.
-/

/-- A character matching the JavaScript regex class \s (the whitespace
forms that can realistically appear in a form field). -/
def isJsSpace (c : Char) : Bool :=
  c == ' ' || c == '\t' || c == '\n' || c == '\r' || c == '\x0b' || c == '\x0c' || c == ' '

/-- Strip leading characters matching isJsSpace, as in the left half of
JavaScript String.prototype.trim. -/
def jsTrimLeft : List Char → List Char
  | [] => []
  | c :: cs => if isJsSpace c then jsTrimLeft cs else c :: cs

/-- JavaScript String.prototype.trim on a character list: strip whitespace
from both ends. -/
def jsTrim (cs : List Char) : List Char :=
  (jsTrimLeft (jsTrimLeft cs.reverse).reverse)

/-- A character matching the regex class [^\s@]: not whitespace and not
the at sign. -/
def isEmailAtomChar (c : Char) : Bool :=
  !(isJsSpace c) && !(c == '@')

/-- The test of EMAIL_REGEX = /^[^\s@]+@[^\s@]+\.[^\s@]+$/ shared by
RegisterScreen.tsx (validateEmail) and ForgotPasswordScreen (EMAIL_REGEX).
A string matches exactly when it splits as local ++ at ++ domain where the
local part is a nonempty run of [^\s@] characters, the single at sign
follows, and the domain is a nonempty run of [^\s@] characters containing
a dot that is neither its first nor its last character (the regex demands
nonempty [^\s@]+ runs on both sides of the dot). Since every character
class after the literal at sign excludes the at sign, the split at the
first at sign is the only possible one. -/
def emailTest (s : String) : Bool :=
  let cs := s.data
  let l := cs.takeWhile (fun c => !(c == '@'))
  let r := cs.dropWhile (fun c => !(c == '@'))
  match r with
  | [] => false
  | _ :: d =>
    !l.isEmpty && l.all isEmailAtomChar &&
    !d.isEmpty && d.all isEmailAtomChar &&
    ((d.drop 1).dropLast.contains '.')

namespace Register

/-- validateEmail from RegisterScreen.tsx: tests the email against
/^[^\s@]+@[^\s@]+\.[^\s@]+$/. -/
def validateEmail (email : String) : Bool :=
  emailTest email

/-- The result object of validatePassword in RegisterScreen.tsx:
an isValid flag and an optional error message. -/
structure PasswordValidation where
  isValid : Bool
  message : Option String
  deriving DecidableEq, Repr

/-- validatePassword from RegisterScreen.tsx: length at least 8, then the
lookahead regexes (?=.*[a-z]), (?=.*[A-Z]), (?=.*\d), checked in that
order; the first failing rule supplies the message. -/
def validatePassword (password : String) : PasswordValidation :=
  if password.length < 8 then
    ⟨false, some "Password must be at least 8 characters long"⟩
  else if !(password.data.any Char.isLower) then
    ⟨false, some "Password must contain at least one lowercase letter"⟩
  else if !(password.data.any Char.isUpper) then
    ⟨false, some "Password must contain at least one uppercase letter"⟩
  else if !(password.data.any Char.isDigit) then
    ⟨false, some "Password must contain at least one number"⟩
  else
    ⟨true, none⟩

/-- validateName from RegisterScreen.tsx: trimmed length at least 2 and
the trimmed name matches /^[a-zA-Z\s]+$/. -/
def validateName (name : String) : Bool :=
  let t := jsTrim name.data
  2 ≤ t.length && !t.isEmpty && t.all (fun c => Char.isAlpha c || isJsSpace c)

/-- The form fields of RegisterScreen.tsx (the formData state object). -/
structure RegisterForm where
  name : String
  email : String
  password : String
  confirmPassword : String
  deriving DecidableEq, Repr

/-- The observable outcome of one call to handleRegister in
RegisterScreen.tsx. The first three constructors are the early-return
aborts (each shows one modal alert and changes no state); the last is the
path that sets isLoading, runs the simulated registration delay, and shows
the success alert. -/
inductive RegisterOutcome
  | alertFillFields
  | alertAgreeTerms
  | alertFixErrors
  | proceedToRegistration
  deriving DecidableEq, Repr

/-- handleRegister from RegisterScreen.tsx, up to the choice of outcome:
empty-field check on the four fields, then the terms checkbox, then
Object.keys(errors).length > 0, in that order; only if all pass does the
handler continue into the loading / simulated-API / success-alert path.
The errors record is modelled as the association list of its keys. -/
def handleRegister (f : RegisterForm) (agreeToTerms : Bool)
    (errors : List (String × String)) : RegisterOutcome :=
  if f.name = "" ∨ f.email = "" ∨ f.password = "" ∨ f.confirmPassword = "" then
    .alertFillFields
  else if !agreeToTerms then
    .alertAgreeTerms
  else if errors.length > 0 then
    .alertFixErrors
  else
    .proceedToRegistration

end Register

/-- A side effect emitted by an event handler: keychain writes, an
AsyncStorage write, navigation, a modal alert, or the onLoginSuccess
callback. -/
inductive Effect
  | keychainSet (username password : String)
  | keychainReset
  | asyncSetItem (key value : String)
  | navReplace (route : String)
  | navNavigate (route : String)
  | navGoBack
  | alert (title message : String)
  | callOnLoginSuccess
  deriving DecidableEq, Repr

/-- Whether an effect writes persistent state (the keychain or
AsyncStorage), as opposed to navigation, alerts, or callbacks. -/
def Effect.isPersistent : Effect → Bool
  | .keychainSet _ _ => true
  | .keychainReset => true
  | .asyncSetItem _ _ => true
  | _ => false

namespace Login

/-- Which navigation mechanisms the LoginScreen component received as
props: a React Navigation object and/or an onLoginSuccess callback. -/
structure LoginProps where
  hasNavigation : Bool
  hasOnLoginSuccess : Bool
  deriving DecidableEq, Repr

/-- handleLogin from the login screen, as the list of effects it emits.
Empty username or password (falsy strings) aborts with the fill-in alert.
Otherwise the demo accepts any credentials: the inner truthiness check is
re-tested as in the source (its else branch, the invalid-credentials
alert, is dead code under the outer guard), rememberMe decides between
storing the pair in the keychain plus the true flag, or resetting the
keychain plus the false flag, and then navigation.replace falls back to
the onLoginSuccess callback. The simulated authentication never throws,
so the catch alert never appears. -/
def handleLogin (username password : String) (rememberMe : Bool)
    (props : LoginProps) : List Effect :=
  if username = "" ∨ password = "" then
    [.alert "Error" "Please fill in all fields"]
  else
    if username ≠ "" ∧ password ≠ "" then
      (if rememberMe then
        [.keychainSet username password, .asyncSetItem "rememberMe" "true"]
      else
        [.keychainReset, .asyncSetItem "rememberMe" "false"]) ++
      (if props.hasNavigation then [.navReplace "Home"]
       else if props.hasOnLoginSuccess then [.callOnLoginSuccess]
       else [])
    else
      [.alert "Error" "Invalid credentials"]

/-- The three pieces of login-form state that loadStoredCredentials can
pre-fill: username, password and the remember-me checkbox. -/
structure PrefilledForm where
  username : String
  password : String
  rememberMe : Bool
  deriving DecidableEq, Repr

/-- The initial login-form state: both fields empty, checkbox unchecked. -/
def initialForm : PrefilledForm := ⟨"", "", false⟩

/-- loadStoredCredentials from the login screen mount effect. Inputs are
the AsyncStorage value stored under the rememberMe key (none when the key
is absent) and the keychain result (none models the false return when no
generic password is stored). Only when the flag reads exactly the string
true and credentials exist are the three fields set; otherwise, including
when the try block throws, state keeps its initial values. -/
def loadStoredCredentials (rememberValue : Option String)
    (credentials : Option (String × String)) : PrefilledForm :=
  if rememberValue = some "true" then
    match credentials with
    | some (u, p) => ⟨u, p, true⟩
    | none => initialForm
  else
    initialForm

end Login

namespace ForgotPassword

/-- PASSWORD_MIN_LENGTH from ForgotPasswordScreen. -/
def PASSWORD_MIN_LENGTH : Nat := 6

/-- The ForgotPasswordStep union type: the four steps of the wizard. -/
inductive Step
  | email
  | otp
  | newPassword
  | success
  deriving DecidableEq, Repr

/-- The component state of ForgotPasswordScreen that the handlers read
and write: the current step, the four form fields, the loading flag, the
errors record (modelled as an association list) and the resend timer. -/
structure FPState where
  currentStep : Step
  email : String
  otp : String
  newPassword : String
  confirmPassword : String
  isLoading : Bool
  errors : List (String × String)
  resendTimer : Nat
  deriving DecidableEq, Repr

/-- The initial state of ForgotPasswordScreen: step email, empty fields,
not loading, no errors, timer zero. -/
def initialState : FPState :=
  ⟨.email, "", "", "", "", false, [], 0⟩

/-- The simulated API call, translated from
await new Promise(resolve => setTimeout(resolve, ms)): a timer promise
that always resolves and never rejects, so the Except is always ok. -/
def simulatedDelay (_ms : Nat) : Except String Unit :=
  .ok ()

/-- validateEmail from ForgotPasswordScreen: required, then EMAIL_REGEX;
returns the error message, or the empty string when valid. -/
def validateEmail (emailValue : String) : String :=
  if (jsTrim emailValue.data).isEmpty then "Email is required"
  else if !(emailTest emailValue) then "Please enter a valid email address"
  else ""

/-- validateOTP from ForgotPasswordScreen: required, then exactly six
characters, then /^\d+$/; returns the error message or the empty
string. -/
def validateOTP (otpValue : String) : String :=
  if (jsTrim otpValue.data).isEmpty then "OTP is required"
  else if otpValue.length ≠ 6 then "OTP must be 6 digits"
  else if !(!otpValue.data.isEmpty && otpValue.data.all Char.isDigit) then
    "OTP must contain only numbers"
  else ""

/-- validateNewPassword from ForgotPasswordScreen: required, then length
at least PASSWORD_MIN_LENGTH. -/
def validateNewPassword (passwordValue : String) : String :=
  if passwordValue = "" then "Password is required"
  else if passwordValue.length < PASSWORD_MIN_LENGTH then
    "Password must be at least " ++ toString PASSWORD_MIN_LENGTH ++ " characters"
  else ""

/-- validateConfirmPassword from ForgotPasswordScreen: required, then
equality with the newPassword state. -/
def validateConfirmPassword (confirmValue newPassword : String) : String :=
  if confirmValue = "" then "Please confirm your password"
  else if confirmValue ≠ newPassword then "Passwords do not match"
  else ""

/-- clearError from ForgotPasswordScreen: when the field has a truthy
(nonempty) error, overwrite that entry with the empty string. -/
def clearError (field : String) (errors : List (String × String)) :
    List (String × String) :=
  match errors.lookup field with
  | some m =>
    if m ≠ "" then
      errors.map (fun kv => if kv.1 = field then (kv.1, "") else kv)
    else errors
  | none => errors

/-- The success alert of handleSendOTP, with the email interpolated. -/
def otpSentMessage (email : String) : String :=
  "We\x27ve sent a 6-digit verification code to " ++ email ++
  ". Please check your email."

/-- handleSendOTP from ForgotPasswordScreen: on an email validation error
it stores the error object and returns; otherwise it sets loading, runs
the simulated 2000ms delay (which always resolves), moves to the otp
step, starts the 60-second resend timer, shows the sent alert and clears
loading. The catch branch shows the error alert. -/
def handleSendOTP (s : FPState) : FPState × List Effect :=
  let emailError := validateEmail s.email
  if emailError ≠ "" then
    ({ s with errors := [("email", emailError)] }, [])
  else
    match simulatedDelay 2000 with
    | .ok _ =>
      ({ s with currentStep := .otp, resendTimer := 60, isLoading := false },
       [.alert "OTP Sent!" (otpSentMessage s.email)])
    | .error e =>
      ({ s with isLoading := false }, [.alert "Error" e])

/-- handleVerifyOTP from ForgotPasswordScreen: on an OTP validation error
it stores the error object and returns; otherwise it sets loading, runs
the simulated 1500ms delay (which always resolves), and moves to the
newPassword step. The catch branch shows the invalid-OTP alert and sets
the otp error. -/
def handleVerifyOTP (s : FPState) : FPState × List Effect :=
  let otpError := validateOTP s.otp
  if otpError ≠ "" then
    ({ s with errors := [("otp", otpError)] }, [])
  else
    match simulatedDelay 1500 with
    | .ok _ =>
      ({ s with currentStep := .newPassword, isLoading := false }, [])
    | .error _ =>
      ({ s with errors := [("otp", "Invalid or expired OTP")], isLoading := false },
       [.alert "Invalid OTP"
         "The verification code you entered is invalid or has expired. Please try again."])

/-- handleResetPassword from ForgotPasswordScreen: when either the new
password or its confirmation fails validation it stores both error
entries and returns; otherwise it sets loading, runs the simulated 2000ms
delay (which always resolves), and moves to the success step. The catch
branch shows the reset-failed alert. -/
def handleResetPassword (s : FPState) : FPState × List Effect :=
  let passwordError := validateNewPassword s.newPassword
  let confirmError := validateConfirmPassword s.confirmPassword s.newPassword
  if passwordError ≠ "" ∨ confirmError ≠ "" then
    ({ s with errors :=
        [("newPassword", passwordError), ("confirmPassword", confirmError)] }, [])
  else
    match simulatedDelay 2000 with
    | .ok _ =>
      ({ s with currentStep := .success, isLoading := false }, [])
    | .error e =>
      ({ s with isLoading := false }, [.alert "Reset Failed" e])

/-- handleResendOTP from ForgotPasswordScreen: a no-op while the timer
runs; otherwise restart the timer, run the always-resolving 1000ms delay
and show the resent alert (the catch resets the timer). -/
def handleResendOTP (s : FPState) : FPState × List Effect :=
  if s.resendTimer > 0 then (s, [])
  else
    match simulatedDelay 1000 with
    | .ok _ =>
      ({ s with resendTimer := 60 },
       [.alert "OTP Resent" "A new verification code has been sent to your email."])
    | .error _ =>
      ({ s with resendTimer := 0 },
       [.alert "Error" "Failed to resend OTP. Please try again."])

/-- handleBackToLogin from ForgotPasswordScreen: navigate to the Login
route when a navigation prop exists. -/
def handleBackToLogin (hasNavigation : Bool) : List Effect :=
  if hasNavigation then [.navNavigate "Login"] else []

/-- handleBackStep from ForgotPasswordScreen: otp steps back to email,
newPassword steps back to otp, success leaves through handleBackToLogin,
and the default (email) case calls navigation.goBack, leaving the
wizard. -/
def handleBackStep (hasNavigation : Bool) (s : FPState) :
    FPState × List Effect :=
  match s.currentStep with
  | .otp => ({ s with currentStep := .email }, [])
  | .newPassword => ({ s with currentStep := .otp }, [])
  | .success => (s, handleBackToLogin hasNavigation)
  | .email => (s, if hasNavigation then [.navGoBack] else [])

/-- The onChangeText handler of the OTP input: remove every character
outside [0-9] and keep at most the first six. -/
def otpOnChangeText (value : String) : String :=
  String.mk ((value.data.filter Char.isDigit).take 6)

/-- The onChangeText handler of the email input: lower-case, then trim. -/
def emailOnChangeText (value : String) : String :=
  String.mk (jsTrim (value.data.map Char.toLower))

/-- The user-interface events of ForgotPasswordScreen: typing into the
input rendered for the current step, pressing the step button, resending
the OTP, the header back button, the success-screen button, and a tick of
the resend timer. -/
inductive FPEvent
  | changeEmail (v : String)
  | changeOtp (v : String)
  | changeNewPassword (v : String)
  | changeConfirmPassword (v : String)
  | sendOTP
  | verifyOTP
  | resetPassword
  | resendOTP
  | backStep
  | backToLogin
  | timerTick

/-- One user-interface step of ForgotPasswordScreen: each input and each
primary button exists only on the step that renders it (and the primary
buttons are disabled while loading), the header back button is always
present, and the timer ticks down. -/
def fpStep (hasNavigation : Bool) (s : FPState) :
    FPEvent → FPState × List Effect
  | .changeEmail v =>
    if s.currentStep = .email then
      ({ s with email := emailOnChangeText v,
                errors := clearError "email" s.errors }, [])
    else (s, [])
  | .changeOtp v =>
    if s.currentStep = .otp then
      ({ s with otp := otpOnChangeText v,
                errors := clearError "otp" s.errors }, [])
    else (s, [])
  | .changeNewPassword v =>
    if s.currentStep = .newPassword then
      ({ s with newPassword := v,
                errors := clearError "newPassword" s.errors }, [])
    else (s, [])
  | .changeConfirmPassword v =>
    if s.currentStep = .newPassword then
      ({ s with confirmPassword := v,
                errors := clearError "confirmPassword" s.errors }, [])
    else (s, [])
  | .sendOTP =>
    if s.currentStep = .email ∧ !s.isLoading then handleSendOTP s else (s, [])
  | .verifyOTP =>
    if s.currentStep = .otp ∧ !s.isLoading then handleVerifyOTP s else (s, [])
  | .resetPassword =>
    if s.currentStep = .newPassword ∧ !s.isLoading then handleResetPassword s
    else (s, [])
  | .resendOTP =>
    if s.currentStep = .otp then handleResendOTP s else (s, [])
  | .backStep => handleBackStep hasNavigation s
  | .backToLogin =>
    if s.currentStep = .success then (s, handleBackToLogin hasNavigation)
    else (s, [])
  | .timerTick =>
    if s.resendTimer > 0 then ({ s with resendTimer := s.resendTimer - 1 }, [])
    else (s, [])

/-- The states of ForgotPasswordScreen reachable from the initial state
through user-interface events. -/
inductive Reachable (hasNavigation : Bool) : FPState → Prop
  | init : Reachable hasNavigation initialState
  | step {s : FPState} (e : FPEvent) :
      Reachable hasNavigation s →
      Reachable hasNavigation (fpStep hasNavigation s e).1

end ForgotPassword

namespace AppRoot

/-- checkLoginStatus from the App root component: after the
initialization delay it reads the userToken key from AsyncStorage and
sets isLoggedIn to the JavaScript truthiness of the result (null and the
empty string are falsy). When the read throws, isLoggedIn keeps its
initial false. The read outcome is the input: ok carries the stored value
(none when the key is absent), error models a thrown exception. -/
def checkLoginStatus (readResult : Except Unit (Option String)) : Bool :=
  match readResult with
  | .ok (some token) => token ≠ ""
  | .ok none => false
  | .error _ => false

/-- The routes the App root can start the navigator on, plus the Loading
screen rendered while isLoading holds. -/
inductive Route
  | loading
  | home
  | login
  deriving DecidableEq, Repr

/-- The App component's choice of initially rendered screen: the Loading
screen while isLoading, then the stack navigator with initialRouteName
Home when isLoggedIn and Login otherwise. -/
def appInitialRoute (isLoading isLoggedIn : Bool) : Route :=
  if isLoading then .loading
  else if isLoggedIn then .home
  else .login

end AppRoot

/-- C2: on every successful login the persistent writes are exactly the
keychain save of the credential pair plus the rememberMe true flag when
the checkbox is on, and the keychain reset plus the rememberMe false flag
when it is off; handleLogin writes nothing else persistent. -/
theorem Login.handleLogin_persistence (username password : String)
    (rememberMe : Bool) (props : Login.LoginProps)
    (hu : username ≠ "") (hp : password ≠ "") :
    (Login.handleLogin username password rememberMe props).filter
        Effect.isPersistent =
      if rememberMe then
        [.keychainSet username password, .asyncSetItem "rememberMe" "true"]
      else
        [.keychainReset, .asyncSetItem "rememberMe" "false"] := by
  unfold Login.handleLogin
  rw [if_neg (by tauto), if_pos ⟨hu, hp⟩]
  cases rememberMe <;>
    rcases props with ⟨hn, hs⟩ <;> cases hn <;> cases hs <;>
      simp [List.filter, Effect.isPersistent]

/-- Witness for C2 at concrete credentials, both checkbox positions. -/
theorem Login.handleLogin_persistence_witness :
    (Login.handleLogin "alice" "pw1" true ⟨true, false⟩).filter
        Effect.isPersistent =
      [.keychainSet "alice" "pw1", .asyncSetItem "rememberMe" "true"] ∧
    (Login.handleLogin "alice" "pw1" false ⟨true, false⟩).filter
        Effect.isPersistent =
      [.keychainReset, .asyncSetItem "rememberMe" "false"] := by
  constructor
  · simpa using
      Login.handleLogin_persistence "alice" "pw1" true ⟨true, false⟩
        (by decide) (by decide)
  · simpa using
      Login.handleLogin_persistence "alice" "pw1" false ⟨true, false⟩
        (by decide) (by decide)

/-- C3: on mount, the form is pre-filled from the keychain exactly when
the stored rememberMe flag is the string true and credentials exist;
in every other case the three fields keep their initial values. -/
theorem Login.loadStoredCredentials_prefill (remember : Option String)
    (credentials : Option (String × String)) :
    (∀ u p, remember = some "true" → credentials = some (u, p) →
      Login.loadStoredCredentials remember credentials = ⟨u, p, true⟩)
    ∧ (remember ≠ some "true" ∨ credentials = none →
      Login.loadStoredCredentials remember credentials = Login.initialForm) := by
  constructor
  · intro u p hr hc
    subst hr; subst hc
    simp [Login.loadStoredCredentials]
  · intro h
    unfold Login.loadStoredCredentials
    rcases h with h | h
    · rw [if_neg h]
    · subst h
      by_cases hr : remember = some "true"
      · rw [if_pos hr]
      · rw [if_neg hr]

/-- Witness for C3: the flag set with stored credentials pre-fills; a
missing flag leaves the initial form. -/
theorem Login.loadStoredCredentials_prefill_witness :
    Login.loadStoredCredentials (some "true") (some ("bob", "pw2")) =
      ⟨"bob", "pw2", true⟩ ∧
    Login.loadStoredCredentials none (some ("bob", "pw2")) =
      Login.initialForm := by
  constructor
  · exact (Login.loadStoredCredentials_prefill (some "true")
      (some ("bob", "pw2"))).1 "bob" "pw2" rfl rfl
  · exact (Login.loadStoredCredentials_prefill none
      (some ("bob", "pw2"))).2 (Or.inl (by simp))

/-- C4: handleLogin emits exactly the fill-in-all-fields alert (and no
persistence or navigation) precisely when username or password is empty;
any pair of nonempty credentials is accepted: the handler persists
according to rememberMe and then navigates to Home or falls back to the
onLoginSuccess callback. -/
theorem Login.handleLogin_empty_iff (username password : String)
    (rememberMe : Bool) (props : Login.LoginProps) :
    (Login.handleLogin username password rememberMe props =
        [.alert "Error" "Please fill in all fields"] ↔
      username = "" ∨ password = "")
    ∧ (username ≠ "" → password ≠ "" →
      Login.handleLogin username password rememberMe props =
        (if rememberMe then
          [.keychainSet username password, .asyncSetItem "rememberMe" "true"]
        else
          [.keychainReset, .asyncSetItem "rememberMe" "false"]) ++
        (if props.hasNavigation then [.navReplace "Home"]
         else if props.hasOnLoginSuccess then [.callOnLoginSuccess]
         else [])) := by
  constructor
  · constructor
    · intro h
      by_contra hne
      push_neg at hne
      unfold Login.handleLogin at h
      rw [if_neg (by tauto), if_pos ⟨hne.1, hne.2⟩] at h
      cases hr : rememberMe <;> rw [hr] at h <;> simp at h
    · intro h
      unfold Login.handleLogin
      rw [if_pos h]
  · intro hu hp
    unfold Login.handleLogin
    rw [if_neg (by tauto), if_pos ⟨hu, hp⟩]

/-- Witness for C4: empty password aborts with the alert; nonempty
credentials succeed with persistence followed by the Home navigation. -/
theorem Login.handleLogin_empty_iff_witness :
    Login.handleLogin "alice" "" true ⟨true, false⟩ =
      [.alert "Error" "Please fill in all fields"] ∧
    Login.handleLogin "alice" "pw1" false ⟨true, false⟩ =
      [.keychainReset, .asyncSetItem "rememberMe" "false",
       .navReplace "Home"] := by
  constructor
  · exact (Login.handleLogin_empty_iff "alice" "" true ⟨true, false⟩).1.2
      (Or.inr rfl)
  · simpa using (Login.handleLogin_empty_iff "alice" "pw1" false
      ⟨true, false⟩).2 (by decide) (by decide)

/-- C5: handleRegister aborts, in order, with the fill-in alert when a
field is empty, the terms alert when the checkbox is off, and the
fix-validation-errors alert when the errors record is nonempty; only
when none of these hold does it proceed into the loading and simulated
registration path. -/
theorem Register.handleRegister_spec (f : Register.RegisterForm)
    (agreeToTerms : Bool) (errors : List (String × String)) :
    (Register.handleRegister f agreeToTerms errors = .alertFillFields ↔
      (f.name = "" ∨ f.email = "" ∨ f.password = "" ∨ f.confirmPassword = ""))
    ∧ (Register.handleRegister f agreeToTerms errors = .alertAgreeTerms ↔
      (f.name ≠ "" ∧ f.email ≠ "" ∧ f.password ≠ "" ∧ f.confirmPassword ≠ "" ∧
       agreeToTerms = false))
    ∧ (Register.handleRegister f agreeToTerms errors = .alertFixErrors ↔
      (f.name ≠ "" ∧ f.email ≠ "" ∧ f.password ≠ "" ∧ f.confirmPassword ≠ "" ∧
       agreeToTerms = true ∧ errors ≠ []))
    ∧ (Register.handleRegister f agreeToTerms errors = .proceedToRegistration ↔
      (f.name ≠ "" ∧ f.email ≠ "" ∧ f.password ≠ "" ∧ f.confirmPassword ≠ "" ∧
       agreeToTerms = true ∧ errors = [])) := by
  unfold Register.handleRegister
  by_cases h1 : f.name = "" ∨ f.email = "" ∨ f.password = "" ∨ f.confirmPassword = "" <;>
    [skip; push_neg at h1] <;>
    cases agreeToTerms <;>
    cases errors <;>
    simp_all <;> tauto

/-- Witness for C5: a filled form with terms agreed and no errors
proceeds; the same form with a pending error aborts with the
fix-errors alert. -/
theorem Register.handleRegister_spec_witness :
    Register.handleRegister ⟨"Ann Lee", "a@b.c", "Abcdef12", "Abcdef12"⟩
      true [] = .proceedToRegistration ∧
    Register.handleRegister ⟨"Ann Lee", "a@b.c", "Abcdef12", "Abcdef12"⟩
      true [("email", "bad")] = .alertFixErrors := by
  constructor
  · exact (Register.handleRegister_spec ⟨"Ann Lee", "a@b.c", "Abcdef12", "Abcdef12"⟩
      true []).2.2.2.mpr (by simp)
  · exact (Register.handleRegister_spec ⟨"Ann Lee", "a@b.c", "Abcdef12", "Abcdef12"⟩
      true [("email", "bad")]).2.2.1.mpr (by simp)


/-- C6: registration password validity holds exactly for passwords of
length at least 8 containing a lowercase letter, an uppercase letter and
a digit; an invalid password reports the message of the first failing
rule in that order; the forgot-password validateNewPassword instead
accepts exactly the passwords of length at least PASSWORD_MIN_LENGTH = 6. -/
theorem Register.validatePassword_spec (p : String) :
    ((Register.validatePassword p).isValid = true ↔
      (8 ≤ p.length ∧ p.data.any Char.isLower = true ∧
       p.data.any Char.isUpper = true ∧ p.data.any Char.isDigit = true))
    ∧ (p.length < 8 →
      (Register.validatePassword p).message =
        some "Password must be at least 8 characters long")
    ∧ (8 ≤ p.length → p.data.any Char.isLower = false →
      (Register.validatePassword p).message =
        some "Password must contain at least one lowercase letter")
    ∧ (8 ≤ p.length → p.data.any Char.isLower = true →
       p.data.any Char.isUpper = false →
      (Register.validatePassword p).message =
        some "Password must contain at least one uppercase letter")
    ∧ (8 ≤ p.length → p.data.any Char.isLower = true →
       p.data.any Char.isUpper = true → p.data.any Char.isDigit = false →
      (Register.validatePassword p).message =
        some "Password must contain at least one number")
    ∧ ((Register.validatePassword p).isValid = true →
      (Register.validatePassword p).message = none)
    ∧ (ForgotPassword.validateNewPassword p = "" ↔ 6 ≤ p.length) := by
  have hval : (Register.validatePassword p).isValid = true ↔
      (8 ≤ p.length ∧ p.data.any Char.isLower = true ∧
       p.data.any Char.isUpper = true ∧ p.data.any Char.isDigit = true) := by
    unfold Register.validatePassword
    split_ifs with a b c d <;> simp_all [Nat.not_lt]
  have hm1 : p.length < 8 → (Register.validatePassword p).message =
      some "Password must be at least 8 characters long" := by
    intro h
    simp [Register.validatePassword, h]
  have hm2 : 8 ≤ p.length → p.data.any Char.isLower = false →
      (Register.validatePassword p).message =
        some "Password must contain at least one lowercase letter" := by
    intro h hlo
    unfold Register.validatePassword
    rw [if_neg (by omega), if_pos (by simp [hlo])]
  have hm3 : 8 ≤ p.length → p.data.any Char.isLower = true →
       p.data.any Char.isUpper = false →
      (Register.validatePassword p).message =
        some "Password must contain at least one uppercase letter" := by
    intro h hlo hup
    unfold Register.validatePassword
    rw [if_neg (by omega), if_neg (by simp [hlo]), if_pos (by simp [hup])]
  have hm4 : 8 ≤ p.length → p.data.any Char.isLower = true →
       p.data.any Char.isUpper = true → p.data.any Char.isDigit = false →
      (Register.validatePassword p).message =
        some "Password must contain at least one number" := by
    intro h hlo hup hdi
    unfold Register.validatePassword
    rw [if_neg (by omega), if_neg (by simp [hlo]), if_neg (by simp [hup]),
        if_pos (by simp [hdi])]
  have hm5 : (Register.validatePassword p).isValid = true →
      (Register.validatePassword p).message = none := by
    unfold Register.validatePassword
    split_ifs <;> simp
  have hnew : ForgotPassword.validateNewPassword p = "" ↔ 6 ≤ p.length := by
    unfold ForgotPassword.validateNewPassword ForgotPassword.PASSWORD_MIN_LENGTH
    split_ifs with he hl
    · subst he
      constructor
      · intro h
        exact absurd h (by decide)
      · intro h
        exact absurd h (by decide)
    · constructor
      · intro h
        exact absurd h (by decide)
      · intro h
        omega
    · constructor
      · intro _
        omega
      · intro _
        rfl
  exact ⟨hval, hm1, hm2, hm3, hm4, hm5, hnew⟩

/-- Witness for C6: each failing rule reports its own message at a
concrete password, and a compliant password is valid. -/
theorem Register.validatePassword_spec_witness :
    (Register.validatePassword "Abcdef12").isValid = true ∧
    (Register.validatePassword "Ab1").message =
      some "Password must be at least 8 characters long" ∧
    (Register.validatePassword "ABCDEF12").message =
      some "Password must contain at least one lowercase letter" ∧
    (Register.validatePassword "abcdef12").message =
      some "Password must contain at least one uppercase letter" ∧
    (Register.validatePassword "Abcdefgh").message =
      some "Password must contain at least one number" ∧
    ForgotPassword.validateNewPassword "abcdef" = "" := by
  refine ⟨?_, ?_, ?_, ?_, ?_, ?_⟩
  · exact (Register.validatePassword_spec "Abcdef12").1.mpr (by decide)
  · exact (Register.validatePassword_spec "Ab1").2.1 (by decide)
  · exact (Register.validatePassword_spec "ABCDEF12").2.2.1 (by decide) (by decide)
  · exact (Register.validatePassword_spec "abcdef12").2.2.2.1 (by decide)
      (by decide) (by decide)
  · exact (Register.validatePassword_spec "Abcdefgh").2.2.2.2.1 (by decide)
      (by decide) (by decide) (by decide)
  · exact (Register.validatePassword_spec "abcdef").2.2.2.2.2.2.mpr (by decide)

/-- The first element left by dropWhile fails the predicate. -/
theorem dropWhile_eq_cons_head_not {α : Type} (p : α → Bool) :
    ∀ (l : List α) (x : α) (xs : List α), l.dropWhile p = x :: xs → p x = false := by
  intro l
  induction l with
  | nil =>
    intro x xs h
    simp [List.dropWhile] at h
  | cons a as ih =>
    intro x xs h
    rw [List.dropWhile_cons] at h
    by_cases hp : p a = true
    · simp only [hp, if_true] at h
      exact ih x xs h
    · rw [Bool.not_eq_true] at hp
      simp only [hp, Bool.false_eq_true, if_false] at h
      cases h
      exact hp

/-- C7: the shared email pattern rejects every string without an at sign,
and a string it accepts decomposes as a nonempty local part free of
whitespace and at signs, the single at sign, and a domain free of
whitespace and at signs that contains a dot; in particular the whole
string contains no whitespace. -/
theorem emailTest_spec (s : String) :
    (('@' ∉ s.data) → emailTest s = false)
    ∧ (emailTest s = true →
        ∃ l d, s.data = l ++ '@' :: d ∧ l ≠ [] ∧ d ≠ [] ∧
          (∀ c ∈ l, isJsSpace c = false ∧ c ≠ '@') ∧
          (∀ c ∈ d, isJsSpace c = false ∧ c ≠ '@') ∧
          ('.' ∈ d) ∧
          (∀ c ∈ s.data, isJsSpace c = false)) := by
  constructor
  · intro hno
    have hdrop : s.data.dropWhile (fun c => !(c == '@')) = [] := by
      rw [List.dropWhile_eq_nil_iff]
      intro x hx
      simp only [Bool.not_eq_true', beq_eq_false_iff_ne, ne_eq]
      intro hxe
      exact hno (hxe ▸ hx)
    unfold emailTest
    simp only [hdrop]
  · intro h
    rcases hr : s.data.dropWhile (fun c => !(c == '@')) with _ | ⟨x, d⟩
    · unfold emailTest at h
      simp only [hr] at h
      exact absurd h (by decide)
    · unfold emailTest at h
      simp only [hr, Bool.and_eq_true, Bool.not_eq_true', List.isEmpty_eq_false,
        List.all_eq_true] at h
      obtain ⟨⟨⟨⟨hl1, hl2⟩, hd1⟩, hd2⟩, hdot⟩ := h
      have hx : x = '@' := by
        have hnot := dropWhile_eq_cons_head_not (fun c => !(c == '@')) s.data x d hr
        simpa using hnot
      have hsplit : s.data =
          s.data.takeWhile (fun c => !(c == '@')) ++ '@' :: d := by
        conv_lhs => rw [← List.takeWhile_append_dropWhile
          (p := fun c => !(c == '@')) (l := s.data)]
        rw [hr, hx]
      refine ⟨s.data.takeWhile (fun c => !(c == '@')), d, hsplit, hl1, hd1,
        ?_, ?_, ?_, ?_⟩
      · intro c hc
        have hatom := hl2 c hc
        simp only [isEmailAtomChar, Bool.and_eq_true, Bool.not_eq_true',
          beq_eq_false_iff_ne, ne_eq] at hatom
        exact hatom
      · intro c hc
        have hatom := hd2 c hc
        simp only [isEmailAtomChar, Bool.and_eq_true, Bool.not_eq_true',
          beq_eq_false_iff_ne, ne_eq] at hatom
        exact hatom
      · have hmem : '.' ∈ (d.drop 1).dropLast := by
          have := hdot
          simpa [List.elem_iff] using this
        exact (List.drop_sublist 1 d).subset ((List.dropLast_sublist _).subset hmem)
      · intro c hc
        rw [hsplit] at hc
        rcases List.mem_append.mp hc with hcl | hcd
        · have hatom := hl2 c hcl
          simp only [isEmailAtomChar, Bool.and_eq_true, Bool.not_eq_true'] at hatom
          exact hatom.1
        · rcases List.mem_cons.mp hcd with hce | hcd2
          · subst hce
            decide
          · have hatom := hd2 c hcd2
            simp only [isEmailAtomChar, Bool.and_eq_true, Bool.not_eq_true'] at hatom
            exact hatom.1

/-- Witness for C7: a string without an at sign is rejected, and an
accepted address decomposes as local part, at sign, and dotted domain. -/
theorem emailTest_spec_witness :
    emailTest "abc" = false ∧
    (∃ l d, ("a@b.c").data = l ++ '@' :: d ∧ l ≠ [] ∧ d ≠ [] ∧
      (∀ c ∈ l, isJsSpace c = false ∧ c ≠ '@') ∧
      (∀ c ∈ d, isJsSpace c = false ∧ c ≠ '@') ∧
      ('.' ∈ d) ∧
      (∀ c ∈ ("a@b.c").data, isJsSpace c = false)) := by
  constructor
  · exact (emailTest_spec "abc").1 (by decide)
  · exact (emailTest_spec "a@b.c").2 (by decide)

/-- jsTrimLeft is the identity on lists without whitespace. -/
theorem jsTrimLeft_eq_self {cs : List Char}
    (h : ∀ c ∈ cs, isJsSpace c = false) : jsTrimLeft cs = cs := by
  cases cs with
  | nil => rfl
  | cons a as =>
    unfold jsTrimLeft
    simp only [h a (List.mem_cons_self a as), Bool.false_eq_true, if_false]

/-- jsTrim is the identity on lists without whitespace. -/
theorem jsTrim_eq_self {cs : List Char}
    (h : ∀ c ∈ cs, isJsSpace c = false) : jsTrim cs = cs := by
  unfold jsTrim
  have h1 : jsTrimLeft cs.reverse = cs.reverse := jsTrimLeft_eq_self (by
    intro c hc
    exact h c (List.mem_reverse.mp hc))
  rw [h1, List.reverse_reverse, jsTrimLeft_eq_self h]

/-- A decimal digit is not JavaScript whitespace. -/
theorem isJsSpace_eq_false_of_isDigit {c : Char} (h : c.isDigit = true) :
    isJsSpace c = false := by
  by_contra hc
  rw [Bool.not_eq_false] at hc
  unfold isJsSpace at hc
  simp only [Bool.or_eq_true, beq_iff_eq] at hc
  rcases hc with ((((((rfl | rfl) | rfl) | rfl) | rfl) | rfl) | rfl) <;>
    exact absurd h (by decide)

/-- C9 counterexample: typing a digit-free string leaves the otp value
empty and validateOTP then fails with the required-field error, which is
not the six-digit length error the claim allows. -/
theorem ForgotPassword.otp_counterexample :
    ForgotPassword.otpOnChangeText "abc" = "" ∧
    ForgotPassword.validateOTP (ForgotPassword.otpOnChangeText "abc") =
      "OTP is required" ∧
    ForgotPassword.validateOTP (ForgotPassword.otpOnChangeText "abc") ≠
      "OTP must be 6 digits" ∧
    ForgotPassword.validateOTP (ForgotPassword.otpOnChangeText "abc") ≠ "" := by
  decide

/-- C9 (amended): every otp value produced by the change handler is at
most six characters, all digits; on such values validateOTP fails only
with the required-field error (for the empty value) or the six-digit
length error, and never with the non-numeric error. -/
theorem ForgotPassword.otp_invariant (v : String) :
    ((ForgotPassword.otpOnChangeText v).data.all Char.isDigit = true ∧
     (ForgotPassword.otpOnChangeText v).length ≤ 6) ∧
    ForgotPassword.validateOTP (ForgotPassword.otpOnChangeText v) ≠
      "OTP must contain only numbers" ∧
    (ForgotPassword.validateOTP (ForgotPassword.otpOnChangeText v) = "" ∨
     ForgotPassword.validateOTP (ForgotPassword.otpOnChangeText v) =
       "OTP is required" ∨
     ForgotPassword.validateOTP (ForgotPassword.otpOnChangeText v) =
       "OTP must be 6 digits") := by
  have hdata : (ForgotPassword.otpOnChangeText v).data =
      (v.data.filter Char.isDigit).take 6 := rfl
  have hdig : (ForgotPassword.otpOnChangeText v).data.all Char.isDigit = true := by
    rw [hdata, List.all_eq_true]
    intro c hc
    exact (List.mem_filter.mp (List.mem_of_mem_take hc)).2
  have hlen : (ForgotPassword.otpOnChangeText v).length ≤ 6 := by
    show (ForgotPassword.otpOnChangeText v).data.length ≤ 6
    rw [hdata]
    exact List.length_take_le _ _
  have hnospace : ∀ c ∈ (ForgotPassword.otpOnChangeText v).data,
      isJsSpace c = false := by
    intro c hc
    exact isJsSpace_eq_false_of_isDigit (List.all_eq_true.mp hdig c hc)
  have htrim : jsTrim (ForgotPassword.otpOnChangeText v).data =
      (ForgotPassword.otpOnChangeText v).data := jsTrim_eq_self hnospace
  have hclass : ForgotPassword.validateOTP (ForgotPassword.otpOnChangeText v) = "" ∨
      ForgotPassword.validateOTP (ForgotPassword.otpOnChangeText v) =
        "OTP is required" ∨
      ForgotPassword.validateOTP (ForgotPassword.otpOnChangeText v) =
        "OTP must be 6 digits" := by
    unfold ForgotPassword.validateOTP
    by_cases hemp : (ForgotPassword.otpOnChangeText v).data.isEmpty = true
    · rw [if_pos (by simp only [htrim]; exact hemp)]
      exact Or.inr (Or.inl rfl)
    · rw [Bool.not_eq_true] at hemp
      rw [if_neg (by simp only [htrim]; simp [hemp])]
      by_cases hl6 : (ForgotPassword.otpOnChangeText v).length = 6
      · rw [if_neg (by simp [hl6]), if_neg (by simp [hdig, hemp])]
        exact Or.inl rfl
      · rw [if_pos hl6]
        exact Or.inr (Or.inr rfl)
  refine ⟨⟨hdig, hlen⟩, ?_, hclass⟩
  rcases hclass with h | h | h <;> rw [h] <;> decide

/-- C8: the simulated network delays always resolve, so the catch
branches of the three submit handlers are unreachable: a submission that
passes local validation always advances the wizard; handleVerifyOTP and
handleResetPassword never emit any alert (in particular the Invalid OTP
alert is never shown), and handleSendOTP emits either nothing or the
sent-code alert, never its catch-branch error alert. -/
theorem ForgotPassword.handlers_always_succeed (s : ForgotPassword.FPState) :
    (ForgotPassword.validateEmail s.email = "" →
      ForgotPassword.handleSendOTP s =
        ({ s with currentStep := .otp, resendTimer := 60, isLoading := false },
         [.alert "OTP Sent!" (ForgotPassword.otpSentMessage s.email)]))
    ∧ ((ForgotPassword.handleSendOTP s).2 = [] ∨
       (ForgotPassword.handleSendOTP s).2 =
         [.alert "OTP Sent!" (ForgotPassword.otpSentMessage s.email)])
    ∧ (ForgotPassword.validateOTP s.otp = "" →
      ForgotPassword.handleVerifyOTP s =
        ({ s with currentStep := .newPassword, isLoading := false }, []))
    ∧ ((ForgotPassword.handleVerifyOTP s).2 = [])
    ∧ (ForgotPassword.validateNewPassword s.newPassword = "" →
       ForgotPassword.validateConfirmPassword s.confirmPassword s.newPassword = "" →
      ForgotPassword.handleResetPassword s =
        ({ s with currentStep := .success, isLoading := false }, []))
    ∧ ((ForgotPassword.handleResetPassword s).2 = []) := by
  refine ⟨?_, ?_, ?_, ?_, ?_, ?_⟩
  · intro h
    unfold ForgotPassword.handleSendOTP
    rw [if_neg (by simp [h])]
    rfl
  · unfold ForgotPassword.handleSendOTP
    by_cases h : ForgotPassword.validateEmail s.email ≠ ""
    · rw [if_pos h]
      exact Or.inl rfl
    · rw [if_neg h]
      exact Or.inr rfl
  · intro h
    unfold ForgotPassword.handleVerifyOTP
    rw [if_neg (by simp [h])]
    rfl
  · unfold ForgotPassword.handleVerifyOTP
    by_cases h : ForgotPassword.validateOTP s.otp ≠ ""
    · rw [if_pos h]
    · rw [if_neg h]
      rfl
  · intro h1 h2
    unfold ForgotPassword.handleResetPassword
    rw [if_neg (by simp [h1, h2])]
    rfl
  · unfold ForgotPassword.handleResetPassword
    by_cases h : ForgotPassword.validateNewPassword s.newPassword ≠ "" ∨
        ForgotPassword.validateConfirmPassword s.confirmPassword s.newPassword ≠ ""
    · rw [if_pos h]
    · rw [if_neg h]
      rfl

/-- Witness for C8: a state with a valid email, OTP and matching new
passwords advances through all three submissions without any failure
alert. -/
theorem ForgotPassword.handlers_always_succeed_witness :
    ForgotPassword.handleSendOTP
        ⟨.email, "a@b.c", "123456", "secret1", "secret1", false, [], 0⟩ =
      (⟨.otp, "a@b.c", "123456", "secret1", "secret1", false, [], 60⟩,
       [.alert "OTP Sent!" (ForgotPassword.otpSentMessage "a@b.c")]) ∧
    ForgotPassword.handleVerifyOTP
        ⟨.otp, "a@b.c", "123456", "secret1", "secret1", false, [], 60⟩ =
      (⟨.newPassword, "a@b.c", "123456", "secret1", "secret1", false, [], 60⟩,
       []) ∧
    ForgotPassword.handleResetPassword
        ⟨.newPassword, "a@b.c", "123456", "secret1", "secret1", false, [], 60⟩ =
      (⟨.success, "a@b.c", "123456", "secret1", "secret1", false, [], 60⟩,
       []) := by
  refine ⟨?_, ?_, ?_⟩
  · exact (ForgotPassword.handlers_always_succeed
      ⟨.email, "a@b.c", "123456", "secret1", "secret1", false, [], 0⟩).1
      (by decide)
  · exact (ForgotPassword.handlers_always_succeed
      ⟨.otp, "a@b.c", "123456", "secret1", "secret1", false, [], 60⟩).2.2.1
      (by decide)
  · exact (ForgotPassword.handlers_always_succeed
      ⟨.newPassword, "a@b.c", "123456", "secret1", "secret1", false, [], 60⟩).2.2.2.2.1
      (by decide) (by decide)

/-- C1: the forgot-password flow is a four-step linear wizard over the
Step enum. The wizard starts at email; from its own step each successful
forward handler advances exactly one step (email to otp, otp to
newPassword, newPassword to success) and on validation failure stays
put, so no forward handler skips a step or moves backward; handleBackStep
moves otp back to email and newPassword back to otp, while from success
it leaves for the Login route and from email it leaves via goBack, in
both cases without changing the step; and every reachable state carries
one of the four enum values as its currentStep. -/
theorem ForgotPassword.wizard_linear (hasNavigation : Bool) :
    ForgotPassword.initialState.currentStep = .email
    ∧ (∀ s : ForgotPassword.FPState, s.currentStep = .email →
        ForgotPassword.validateEmail s.email = "" →
        (ForgotPassword.handleSendOTP s).1.currentStep = .otp)
    ∧ (∀ s : ForgotPassword.FPState, s.currentStep = .otp →
        ForgotPassword.validateOTP s.otp = "" →
        (ForgotPassword.handleVerifyOTP s).1.currentStep = .newPassword)
    ∧ (∀ s : ForgotPassword.FPState, s.currentStep = .newPassword →
        ForgotPassword.validateNewPassword s.newPassword = "" →
        ForgotPassword.validateConfirmPassword s.confirmPassword s.newPassword = "" →
        (ForgotPassword.handleResetPassword s).1.currentStep = .success)
    ∧ (∀ s : ForgotPassword.FPState, s.currentStep = .email →
        ((ForgotPassword.handleSendOTP s).1.currentStep = .email ∨
         (ForgotPassword.handleSendOTP s).1.currentStep = .otp))
    ∧ (∀ s : ForgotPassword.FPState, s.currentStep = .otp →
        ((ForgotPassword.handleVerifyOTP s).1.currentStep = .otp ∨
         (ForgotPassword.handleVerifyOTP s).1.currentStep = .newPassword))
    ∧ (∀ s : ForgotPassword.FPState, s.currentStep = .newPassword →
        ((ForgotPassword.handleResetPassword s).1.currentStep = .newPassword ∨
         (ForgotPassword.handleResetPassword s).1.currentStep = .success))
    ∧ (∀ s : ForgotPassword.FPState, s.currentStep = .otp →
        ForgotPassword.handleBackStep hasNavigation s =
          ({ s with currentStep := .email }, []))
    ∧ (∀ s : ForgotPassword.FPState, s.currentStep = .newPassword →
        ForgotPassword.handleBackStep hasNavigation s =
          ({ s with currentStep := .otp }, []))
    ∧ (∀ s : ForgotPassword.FPState, s.currentStep = .success →
        ForgotPassword.handleBackStep hasNavigation s =
          (s, if hasNavigation then [Effect.navNavigate "Login"] else []))
    ∧ (∀ s : ForgotPassword.FPState, s.currentStep = .email →
        ForgotPassword.handleBackStep hasNavigation s =
          (s, if hasNavigation then [Effect.navGoBack] else []))
    ∧ (∀ s : ForgotPassword.FPState,
        ForgotPassword.Reachable hasNavigation s →
        (s.currentStep = .email ∨ s.currentStep = .otp ∨
         s.currentStep = .newPassword ∨ s.currentStep = .success)) := by
  refine ⟨rfl, ?_, ?_, ?_, ?_, ?_, ?_, ?_, ?_, ?_, ?_, ?_⟩
  · intro s _ h
    unfold ForgotPassword.handleSendOTP
    rw [if_neg (by simp [h])]
    rfl
  · intro s _ h
    unfold ForgotPassword.handleVerifyOTP
    rw [if_neg (by simp [h])]
    rfl
  · intro s _ h1 h2
    unfold ForgotPassword.handleResetPassword
    rw [if_neg (by simp [h1, h2])]
    rfl
  · intro s hs
    unfold ForgotPassword.handleSendOTP
    by_cases h : ForgotPassword.validateEmail s.email ≠ ""
    · rw [if_pos h]
      exact Or.inl hs
    · rw [if_neg h]
      exact Or.inr rfl
  · intro s hs
    unfold ForgotPassword.handleVerifyOTP
    by_cases h : ForgotPassword.validateOTP s.otp ≠ ""
    · rw [if_pos h]
      exact Or.inl hs
    · rw [if_neg h]
      exact Or.inr rfl
  · intro s hs
    unfold ForgotPassword.handleResetPassword
    by_cases h : ForgotPassword.validateNewPassword s.newPassword ≠ "" ∨
        ForgotPassword.validateConfirmPassword s.confirmPassword s.newPassword ≠ ""
    · rw [if_pos h]
      exact Or.inl hs
    · rw [if_neg h]
      exact Or.inr rfl
  · intro s hs
    unfold ForgotPassword.handleBackStep
    rw [hs]
  · intro s hs
    unfold ForgotPassword.handleBackStep
    rw [hs]
  · intro s hs
    unfold ForgotPassword.handleBackStep ForgotPassword.handleBackToLogin
    rw [hs]
  · intro s hs
    unfold ForgotPassword.handleBackStep
    rw [hs]
  · intro s _
    cases h : s.currentStep
    · exact Or.inl rfl
    · exact Or.inr (Or.inl rfl)
    · exact Or.inr (Or.inr (Or.inl rfl))
    · exact Or.inr (Or.inr (Or.inr rfl))

/-- Witness for C1 at concrete states: each forward transition fires from
its own step, and the back button steps otp back to email. -/
theorem ForgotPassword.wizard_linear_witness :
    (ForgotPassword.handleSendOTP
        ⟨.email, "a@b.c", "", "", "", false, [], 0⟩).1.currentStep = .otp ∧
    (ForgotPassword.handleVerifyOTP
        ⟨.otp, "a@b.c", "123456", "", "", false, [], 0⟩).1.currentStep =
      .newPassword ∧
    (ForgotPassword.handleResetPassword
        ⟨.newPassword, "a@b.c", "123456", "secret1", "secret1", false, [],
         0⟩).1.currentStep = .success ∧
    ForgotPassword.handleBackStep true
        ⟨.otp, "a@b.c", "123456", "", "", false, [], 0⟩ =
      (⟨.email, "a@b.c", "123456", "", "", false, [], 0⟩, []) ∧
    (ForgotPassword.Reachable true ForgotPassword.initialState →
      (ForgotPassword.initialState.currentStep = .email ∨
       ForgotPassword.initialState.currentStep = .otp ∨
       ForgotPassword.initialState.currentStep = .newPassword ∨
       ForgotPassword.initialState.currentStep = .success)) := by
  refine ⟨?_, ?_, ?_, ?_, ?_⟩
  · exact (ForgotPassword.wizard_linear true).2.1
      ⟨.email, "a@b.c", "", "", "", false, [], 0⟩ rfl (by decide)
  · exact (ForgotPassword.wizard_linear true).2.2.1
      ⟨.otp, "a@b.c", "123456", "", "", false, [], 0⟩ rfl (by decide)
  · exact (ForgotPassword.wizard_linear true).2.2.2.1
      ⟨.newPassword, "a@b.c", "123456", "secret1", "secret1", false, [], 0⟩
      rfl (by decide) (by decide)
  · exact (ForgotPassword.wizard_linear true).2.2.2.2.2.2.2.1
      ⟨.otp, "a@b.c", "123456", "", "", false, [], 0⟩ rfl
  · exact (ForgotPassword.wizard_linear true).2.2.2.2.2.2.2.2.2.2.2
      ForgotPassword.initialState

/-- C10: once the startup check finishes, the initial route is Home
exactly when AsyncStorage returned a nonempty userToken string; in every
other case, including a thrown read, it is Login; while the check is in
flight (isLoading) the Loading screen is shown. -/
theorem AppRoot.initialRoute_spec (readResult : Except Unit (Option String)) :
    (AppRoot.appInitialRoute false (AppRoot.checkLoginStatus readResult) =
        .home ↔ ∃ t, readResult = .ok (some t) ∧ t ≠ "")
    ∧ (AppRoot.appInitialRoute false (AppRoot.checkLoginStatus readResult) =
        .home ∨
       AppRoot.appInitialRoute false (AppRoot.checkLoginStatus readResult) =
        .login)
    ∧ (∀ b : Bool, AppRoot.appInitialRoute true b = .loading) := by
  refine ⟨?_, ?_, ?_⟩
  · rcases readResult with e | t
    · simp [AppRoot.checkLoginStatus, AppRoot.appInitialRoute]
    · rcases t with _ | t
      · simp [AppRoot.checkLoginStatus, AppRoot.appInitialRoute]
      · by_cases ht : t = ""
        · subst ht
          simp [AppRoot.checkLoginStatus, AppRoot.appInitialRoute]
        · simp only [AppRoot.checkLoginStatus, AppRoot.appInitialRoute]
          rw [if_neg (by simp), if_pos (by simp [ht])]
          constructor
          · intro _
            exact ⟨t, rfl, ht⟩
          · intro _
            rfl
  · rcases readResult with e | t
    · simp [AppRoot.checkLoginStatus, AppRoot.appInitialRoute]
    · rcases t with _ | t
      · simp [AppRoot.checkLoginStatus, AppRoot.appInitialRoute]
      · by_cases ht : t = ""
        · subst ht
          simp [AppRoot.checkLoginStatus, AppRoot.appInitialRoute]
        · simp [AppRoot.checkLoginStatus, AppRoot.appInitialRoute, ht]
  · intro b
    rfl
